import Mathlib

/-!
Verification of the Spotter HOS compliance and duty-status engine.

This file is a shallow embedding of the business logic found in the
repository's Python source:

  * `backend/logs/models.py`           — `LogEntry`, `DailyLog` (save,
    calculate_totals, is_hos_compliant)
  * `backend/logs/serializers.py`      — `LogEntryCreateSerializer`
  * `backend/core/models.py`           — `DutyStatusLog`, `DriverProfile`
  * `backend/core/serializers.py`      — `DutyStatusLogSerializer`
    (validate, create)
  * `backend/trips/models.py`          — `Trip` (should_auto_close,
    auto_close_trip)
  * `backend/trips/views.py`           — `start_trip`, `complete_trip`
  * `backend/logs/management/commands/auto_switch_duty_status.py`
  * `backend/trips/management/commands/close_trips_at_midnight.py`

Conventions of the embedding:

  * Clock times are natural numbers of seconds.  A `LogEntry` carries a
    calendar `date` (days since an epoch) and a time-of-day `start_time`
    (seconds in `[0, 86400)`), mirroring Django's `DateField`/`TimeField`.
    A `DutyStatusLog` and a `Trip` carry absolute timestamps (seconds since
    the epoch), mirroring `DateTimeField`.  The server clock is taken to be
    UTC (`USE_TZ = True`), so `now.date()` is `now / 86400` and
    `now.time()` is `now % 86400`.
  * Hour totals (`total_hours`, `available_hours`, `used_hours`) are
    rationals, standing in for Python decimals/floats.
  * Django ORM stores are plain lists of records; a queryset filter is a
    `List.filter`, a queryset `update` or per-row `save` inside a loop is a
    `List.map` over the rows, and `objects.create` appends to the list.
-/

namespace Spotter

/-- Duty statuses of `logs.models.LogEntry.DUTY_STATUS_CHOICES`. -/
inductive DutyStatus
  | off_duty
  | sleeper_berth
  | driving
  | on_duty_not_driving
deriving DecidableEq, Repr

/-- One HOS log entry, from `logs.models.LogEntry`.  Fields not used by any
claim (latitude, vehicle info, ...) are omitted; `date` is days since the
epoch, `start_time`/`end_time` are seconds-of-day. -/
structure LogEntry where
  driver : Nat
  date : Nat
  start_time : Nat
  end_time : Option Nat
  duty_status : DutyStatus
  location : String
  total_hours : ℚ
  odometer_start : Option ℚ
  notes : String
deriving DecidableEq, Repr

/-- `LogEntry.save` (logs/models.py lines 42-50): when an `end_time` is
present, recompute `total_hours` from `start_time` and `end_time` combined
with the entry's single `date`; if the end datetime is before the start
datetime a day (24h = 86400s) is added, and the result is converted to
hours.  When `end_time` is null the stored `total_hours` is untouched. -/
def LogEntry.save (e : LogEntry) : LogEntry :=
  match e.end_time with
  | some et =>
      { e with total_hours :=
          (((et : ℚ) + (if et < e.start_time then 86400 else 0)) - (e.start_time : ℚ)) / 3600 }
  | none => e

/-- Daily HOS totals, from `logs.models.DailyLog` (only the four aggregate
fields that `calculate_totals` writes and `is_hos_compliant` reads). -/
structure DailyLog where
  total_on_duty_hours : ℚ
  total_driving_hours : ℚ
  total_off_duty_hours : ℚ
  total_sleeper_berth_hours : ℚ
deriving DecidableEq, Repr

/-- `DailyLog.calculate_totals` (logs/models.py lines 93-112): filter the
log entries of this driver and date and sum `total_hours` into the bucket
selected by `duty_status`.  The Python loop walks the filtered entries once
and adds each entry's hours to exactly one bucket; its result is the four
per-status sums written here.  Open entries (null `end_time`) are not
special-cased: their stored `total_hours` is summed like any other. -/
def DailyLog.calculate_totals (driver date : Nat) (store : List LogEntry) : DailyLog :=
  let entries := store.filter (fun e => e.driver == driver && e.date == date)
  { total_on_duty_hours :=
      ((entries.filter (fun e => e.duty_status == .on_duty_not_driving)).map
        LogEntry.total_hours).sum
    total_driving_hours :=
      ((entries.filter (fun e => e.duty_status == .driving)).map LogEntry.total_hours).sum
    total_off_duty_hours :=
      ((entries.filter (fun e => e.duty_status == .off_duty)).map LogEntry.total_hours).sum
    total_sleeper_berth_hours :=
      ((entries.filter (fun e => e.duty_status == .sleeper_berth)).map LogEntry.total_hours).sum }

/-- The contribution of one entry to the four totals: add its
`total_hours` to the bucket of its `duty_status` (the body of the
`calculate_totals` loop). -/
def DailyLog.addEntryHours (l : DailyLog) (e : LogEntry) : DailyLog :=
  match e.duty_status with
  | .driving => { l with total_driving_hours := e.total_hours + l.total_driving_hours }
  | .on_duty_not_driving =>
      { l with total_on_duty_hours := e.total_hours + l.total_on_duty_hours }
  | .off_duty => { l with total_off_duty_hours := e.total_hours + l.total_off_duty_hours }
  | .sleeper_berth =>
      { l with total_sleeper_berth_hours := e.total_hours + l.total_sleeper_berth_hours }

/-- `DailyLog.is_hos_compliant` (logs/models.py lines 114-129): false when
driving hours exceed 11, false when driving + on-duty hours exceed 14,
false when off-duty + sleeper-berth rest is below 10, true otherwise. -/
def DailyLog.is_hos_compliant (l : DailyLog) : Bool :=
  if l.total_driving_hours > 11 then false
  else if l.total_driving_hours + l.total_on_duty_hours > 14 then false
  else if l.total_off_duty_hours + l.total_sleeper_berth_hours < 10 then false
  else true

/-- Errors raised by `LogEntryCreateSerializer.validate`
(logs/serializers.py lines 115-123). -/
inductive LogValErr
  | end_time_not_after_start
deriving DecidableEq, Repr

/-- The writable payload of `LogEntryCreateSerializer` (logs/serializers.py
lines 102-113): `date` is read-only (the model default, "today", is used),
and `total_hours` is a writable field with model default 0, so a client may
supply it. -/
structure LogEntryAttrs where
  start_time : Nat
  end_time : Option Nat
  duty_status : DutyStatus
  location : String
  total_hours : ℚ
  odometer_start : Option ℚ
deriving DecidableEq, Repr

/-- `LogEntryCreateSerializer.validate` (logs/serializers.py lines
115-123): when both times are present and `end_time <= start_time`, raise
"End time must be after start time"; otherwise accept the data unchanged.
There is no midnight-crossing escape hatch. -/
def LogEntryCreateSerializer.validate (a : LogEntryAttrs) : Except LogValErr LogEntryAttrs :=
  match a.end_time with
  | some et =>
      if et ≤ a.start_time then .error .end_time_not_after_start else .ok a
  | none => .ok a

/-- The external log-entry creation path (`LogEntryListCreateView` POST):
DRF runs `validate`, then `ModelSerializer.create` builds a `LogEntry` from
the validated data (driver from the request, date = today by model default)
and the model `save` runs, recomputing `total_hours` only when an
`end_time` is present. -/
def LogEntryCreateSerializer.create (driver today : Nat) (a : LogEntryAttrs)
    (store : List LogEntry) : Except LogValErr (List LogEntry × LogEntry) :=
  match LogEntryCreateSerializer.validate a with
  | .error e => .error e
  | .ok a' =>
      let entry := LogEntry.save
        { driver := driver, date := today, start_time := a'.start_time,
          end_time := a'.end_time, duty_status := a'.duty_status,
          location := a'.location, total_hours := a'.total_hours,
          odometer_start := a'.odometer_start, notes := "" }
      .ok (store ++ [entry], entry)

/-- Duty statuses of `core.models.DutyStatusLog.STATUS_CHOICES`
(`off_duty`, `sleeper`, `driving`, `on_duty`). -/
inductive CoreStatus
  | off_duty
  | sleeper
  | driving
  | on_duty
deriving DecidableEq, Repr

/-- `core.models.DutyStatusLog.VEHICLE_CONDITION_CHOICES`: satisfactory,
needs attention, or not safe to drive. -/
inductive VehicleCondition
  | satisfactory
  | needs_attention
  | not_safe_to_drive
deriving DecidableEq, Repr

/-- One duty-status log row, from `core.models.DutyStatusLog`.
`start_time`/`end_time` are absolute timestamps in seconds
(`DateTimeField`); `end_time = none` means the interval is still open. -/
structure DutyStatusLog where
  driver : Nat
  status : CoreStatus
  start_time : Nat
  end_time : Option Nat
  location : String
  odometer_start : Option ℚ
  odometer_end : Option ℚ
  vehicle_condition : Option VehicleCondition
deriving DecidableEq, Repr

/-- The validated payload of `DutyStatusLogSerializer`: the writable fields
the claims touch.  `odometer_start` and `vehicle_condition` are optional
(`allow_null`); absence and JSON null both embed as `none`. -/
structure DutyAttrs where
  status : CoreStatus
  start_time : Nat
  end_time : Option Nat
  location : String
  odometer_start : Option ℚ
  vehicle_condition : Option VehicleCondition
deriving DecidableEq, Repr

/-- Errors raised by the serializer layer (`rest_framework.ValidationError`
with the field-keyed messages used in core/serializers.py). -/
inductive ValErr
  | odometer_start_required
  | vehicle_condition_required
  | end_time_not_after_start_time
deriving DecidableEq, Repr

/-- `DutyStatusLogSerializer.validate` (core/serializers.py lines 153-172):
for `driving` status, `odometer_start` must be present (else a
`ValidationError` on `odometer_start`), then `vehicle_condition` must be
present; for any status, when an `end_time` is supplied it must be strictly
after `start_time`. -/
def DutyStatusLogSerializer.validate (a : DutyAttrs) : Except ValErr DutyAttrs :=
  if a.status = .driving ∧ a.odometer_start = none then
    .error .odometer_start_required
  else if a.status = .driving ∧ a.vehicle_condition = none then
    .error .vehicle_condition_required
  else
    match a.end_time with
    | some et =>
        if et ≤ a.start_time then .error .end_time_not_after_start_time else .ok a
    | none => .ok a

/-- The queryset predicate of the `update` in
`DutyStatusLogSerializer.create`: a row of this driver with status
`driving` and no `end_time`. -/
def isOpenDrivingFor (driver : Nat) (l : DutyStatusLog) : Bool :=
  l.driver == driver && l.status == .driving && l.end_time == none

/-- The effect of `.update(end_time=validated_data['start_time'])` on one
row of the store. -/
def closeIfOpenDriving (driver start_time : Nat) (l : DutyStatusLog) : DutyStatusLog :=
  if isOpenDrivingFor driver l then { l with end_time := some start_time } else l

/-- The body of `DutyStatusLogSerializer.create` (core/serializers.py lines
174-198) after validation: when the new log's status is `driving`, every
open driving log of the same driver is first closed at the new log's
`start_time` (the queryset `update`), then the new row is created. -/
def DutyStatusLogSerializer.createRaw (driver : Nat) (a : DutyAttrs)
    (store : List DutyStatusLog) : List DutyStatusLog × DutyStatusLog :=
  let store' :=
    if a.status = .driving then store.map (closeIfOpenDriving driver a.start_time)
    else store
  let newLog : DutyStatusLog :=
    { driver := driver, status := a.status, start_time := a.start_time,
      end_time := a.end_time, location := a.location,
      odometer_start := a.odometer_start, odometer_end := none,
      vehicle_condition := a.vehicle_condition }
  (store' ++ [newLog], newLog)

/-- The full `open_interval` path of the duty-status API: DRF runs
`validate` first and only calls `create` on success, so a validation error
reaches the caller immediately with the store untouched. -/
def DutyStatusLogSerializer.create (driver : Nat) (a : DutyAttrs)
    (store : List DutyStatusLog) : Except ValErr (List DutyStatusLog × DutyStatusLog) :=
  match DutyStatusLogSerializer.validate a with
  | .error e => .error e
  | .ok a' => .ok (DutyStatusLogSerializer.createRaw driver a' store)

/-- Number of open driving logs a driver has in the store. -/
def countOpenDriving (driver : Nat) (store : List DutyStatusLog) : Nat :=
  (store.filter (isOpenDrivingFor driver)).length

/-- Trip statuses of `trips.models.Trip.STATUS_CHOICES`. -/
inductive TripStatus
  | planning
  | active
  | completed
  | cancelled
deriving DecidableEq, Repr

/-- Cycle types of `trips.models.Trip.CYCLE_CHOICES` (`70_8` or `60_7`). -/
inductive CycleType
  | cycle_70_8
  | cycle_60_7
deriving DecidableEq, Repr

/-- A trip, from `trips.models.Trip` (the fields the claims touch).
`start_time`/`end_time` are absolute timestamps in seconds. -/
structure Trip where
  driver : Nat
  status : TripStatus
  start_time : Option Nat
  end_time : Option Nat
  current_cycle : CycleType
  available_hours : ℚ
  used_hours : ℚ
  is_automatic : Bool
  trip_date : Nat
deriving DecidableEq, Repr

/-- Driver settings from `core.models.DriverProfile` read by the
schedulers.  `auto_close_trip_time` is seconds-of-day built from the
configured hour and minute (the code zeroes seconds); `timezone_offset` is
the driver's IANA timezone rendered as a fixed offset from UTC in
seconds. -/
structure DriverProfile where
  default_cycle : CycleType
  auto_close_trip_at_midnight : Bool
  auto_close_trip_time : Nat
  timezone_offset : Int
deriving DecidableEq, Repr

/-- The off-duty `LogEntry` the trip flows create "for today": date and
start time are taken from the current clock, `total_hours` is 0 and there
is no `end_time`. -/
def offDutyLogEntry (driver now : Nat) (location note : String) : LogEntry :=
  { driver := driver, date := now / 86400, start_time := now % 86400,
    end_time := none, duty_status := .off_duty, location := location,
    total_hours := 0, odometer_start := none, notes := note }

/-- The driving `LogEntry` that `start_trip` creates (trips/views.py lines
98-106): it starts now, is open, and carries no odometer reading. -/
def startTripEntry (driver now : Nat) : LogEntry :=
  { driver := driver, date := now / 86400, start_time := now % 86400,
    end_time := none, duty_status := .driving, location := "Trip started",
    total_hours := 0, odometer_start := none,
    notes := "Automatic log entry created when trip started" }

/-- `start_trip` (trips/views.py lines 77-109): requires `planning` status
(HTTP 400 otherwise), marks the trip active with `start_time = now`, and
creates a driving `LogEntry` for today via `LogEntry.objects.create` — no
serializer validation runs, and no odometer value is given. -/
def start_trip (now : Nat) (trip : Trip) : Except String (Trip × LogEntry) :=
  if trip.status ≠ .planning then .error "Trip is not in planning status"
  else
    .ok ({ trip with status := .active, start_time := some now },
      startTripEntry trip.driver now)

/-- `complete_trip` (trips/views.py lines 114-153): requires `active`
status (HTTP 400 otherwise); sets status completed and `end_time = now`;
when the trip has a `start_time`, the elapsed hours are added to
`used_hours` and subtracted from `available_hours` with no clamping; an
off-duty `LogEntry` for today is created. -/
def complete_trip (now : Nat) (trip : Trip) : Except String (Trip × LogEntry) :=
  if trip.status ≠ .active then .error "Trip is not active"
  else
    let t1 := { trip with status := TripStatus.completed, end_time := some now }
    let t2 := match trip.start_time with
      | some s =>
          let duration : ℚ := ((now : ℚ) - (s : ℚ)) / 3600
          { t1 with
              used_hours := t1.used_hours + duration
              available_hours := t1.available_hours - duration }
      | none => t1
    .ok (t2, offDutyLogEntry trip.driver now "Trip completed"
      "Automatic log entry created when trip completed")

/-- `Trip.should_auto_close` (trips/models.py lines 135-163): false when
the profile disables auto-close; otherwise compare the driver-local time
against today's configured auto-close instant with a 300-second window.
`now_local.replace(hour=h, minute=m, second=0)` is local midnight of the
current local day plus the configured seconds-of-day. -/
def Trip.should_auto_close (now : Nat) (p : DriverProfile) : Bool :=
  if !p.auto_close_trip_at_midnight then false
  else
    let nowLocal : Int := (now : Int) + p.timezone_offset
    let secOfDay : Int := nowLocal % 86400
    let autoCloseDt : Int := nowLocal - secOfDay + (p.auto_close_trip_time : Int)
    decide ((nowLocal - autoCloseDt).natAbs ≤ 300)

/-- `Trip.auto_close_trip` (trips/models.py lines 165-195): mark the trip
completed with `end_time = now`, create an off-duty `LogEntry` for today,
and reset `available_hours` to the cycle maximum (70 or 60) and
`used_hours` to 0. -/
def Trip.auto_close_trip (now : Nat) (t : Trip) : Trip × LogEntry :=
  ({ t with
      status := TripStatus.completed
      end_time := some now
      available_hours := if t.current_cycle = .cycle_70_8 then 70 else 60
      used_hours := 0 },
    offDutyLogEntry t.driver now "Auto-closed trip"
      "Automatic trip closure - status set to off duty")

/-- The per-trip guard of the `close_trips_at_midnight` command: the
queryset keeps active automatic trips, the loop skips drivers with
auto-close disabled and asks `should_auto_close` (which re-checks the
flag). -/
def tripEligibleForAutoClose (profiles : Nat → DriverProfile) (now : Nat) (t : Trip) : Bool :=
  t.status == .active && t.is_automatic &&
    (profiles t.driver).auto_close_trip_at_midnight &&
    Trip.should_auto_close now (profiles t.driver)

/-- The successor trip the midnight command creates: a fresh active
automatic trip for today with the profile's default cycle and the model
defaults `available_hours = 70`, `used_hours = 0`. -/
def successorTrip (profiles : Nat → DriverProfile) (now : Nat) (t : Trip) : Trip :=
  { driver := t.driver, status := .active, start_time := some now, end_time := none,
    current_cycle := (profiles t.driver).default_cycle, available_hours := 70,
    used_hours := 0, is_automatic := true, trip_date := now / 86400 }

/-- The mutable state the midnight command touches: the trip table and the
log-entry table. -/
structure TickState where
  trips : List Trip
  entries : List LogEntry
deriving DecidableEq, Repr

/-- One run of the `close_trips_at_midnight` command (its `handle`): the
queryset of active automatic trips is evaluated once at the start of the
loop, so trips created during the run are not themselves processed in the
same run.  Each matched trip is auto-closed (its own row updated), a
successor trip is created, and an initial off-duty entry is created;
unmatched trips are untouched.  Each iteration touches only its own trip
row and appends rows, which this map-and-append denotation captures. -/
def closeTripsTick (profiles : Nat → DriverProfile) (now : Nat) (st : TickState) : TickState :=
  let elig := st.trips.filter (tripEligibleForAutoClose profiles now)
  { trips :=
      st.trips.map (fun t =>
        if tripEligibleForAutoClose profiles now t then (t.auto_close_trip now).1 else t)
        ++ elig.map (successorTrip profiles now),
    entries := st.entries
      ++ elig.map (fun t => (t.auto_close_trip now).2)
      ++ elig.map (fun t => offDutyLogEntry t.driver now ""
          "Automatic trip creation - starting in off duty status") }

/-- The queryset prefilter of the `auto_switch_duty_status` command:
status `on_duty_not_driving`, no `end_time`, and
`start_time__lte=one_hour_ago`.  `start_time` is a `TimeField` while
`one_hour_ago` is a datetime, which Django coerces to its time-of-day, so
the comparison is `start_time ≤ (now − 1h).time()` on clock times. -/
def autoSwitchPrefilter (now : Nat) (e : LogEntry) : Bool :=
  e.duty_status == .on_duty_not_driving && e.end_time == none &&
    decide ((e.start_time : Int) ≤ ((now : Int) - 3600) % 86400)

/-- The in-loop window check of the `auto_switch_duty_status` command:
the absolute elapsed seconds between now and the entry's start datetime
(its date combined with its start time) lie in `[3600, 3900]`. -/
def autoSwitchWindow (now : Nat) (e : LogEntry) : Bool :=
  let time_diff := ((now : Int) - ((e.date : Int) * 86400 + (e.start_time : Int))).natAbs
  decide (3600 ≤ time_diff ∧ time_diff ≤ 3900)

/-- An entry is processed by the auto-switch tick when it passes both the
queryset prefilter and the window check. -/
def autoSwitchProcessed (now : Nat) (e : LogEntry) : Bool :=
  autoSwitchPrefilter now e && autoSwitchWindow now e

/-- Closing of a processed entry: `entry.end_time = entry.start_time` then
`entry.save()`, which recomputes `total_hours` (to zero, as start equals
end). -/
def autoSwitchClose (e : LogEntry) : LogEntry :=
  LogEntry.save { e with end_time := some e.start_time }

/-- The replacement driving entry the auto-switch tick creates: it starts
now, carries the processed entry's location forward, and is open with zero
hours and no odometer reading. -/
def autoSwitchNewEntry (now : Nat) (e : LogEntry) : LogEntry :=
  { driver := e.driver, date := now / 86400, start_time := now % 86400,
    end_time := none, duty_status := .driving, location := e.location,
    total_hours := 0, odometer_start := none,
    notes := "Auto-switched from on_duty_not_driving after 1 hour - pickup/drop-off complete" }

/-- One run of the `auto_switch_duty_status` command (its `handle`): the
processed entries are closed in place and one new driving entry is created
per processed entry; all other entries are untouched.  Each iteration
touches only its own entry row and appends a row, which this
map-and-append denotation captures. -/
def autoSwitchTick (now : Nat) (store : List LogEntry) : List LogEntry :=
  store.map (fun e => if autoSwitchProcessed now e then autoSwitchClose e else e)
    ++ (store.filter (autoSwitchProcessed now)).map (autoSwitchNewEntry now)

/-! Concrete inputs used by witnesses and counterexamples. -/

/-- The C2 scenario store: one driver (id 1), one date (day 0), five closed
intervals — off-duty 8h, driving 4h, on-duty-not-driving 2h, driving 3h,
off-duty 6h — with `total_hours` computed by `LogEntry.save` from the
interval bounds, as the seed data does. -/
def scenarioStore : List LogEntry :=
  [ LogEntry.save ⟨1, 0, 0, some 28800, .off_duty, "", 0, none, ""⟩,
    LogEntry.save ⟨1, 0, 28800, some 43200, .driving, "", 0, some 100, ""⟩,
    LogEntry.save ⟨1, 0, 43200, some 50400, .on_duty_not_driving, "", 0, none, ""⟩,
    LogEntry.save ⟨1, 0, 50400, some 61200, .driving, "", 0, some 340, ""⟩,
    LogEntry.save ⟨1, 0, 61200, some 82800, .off_duty, "", 0, none, ""⟩ ]

/-- An open driving duty-status row of driver 1, started at second 500. -/
def openDrivingRow : DutyStatusLog :=
  ⟨1, .driving, 500, none, "A", some 10, none, some .satisfactory⟩

/-- A valid driving payload (odometer and vehicle condition present),
starting at second 1000. -/
def drivingAttrs : DutyAttrs :=
  ⟨.driving, 1000, none, "Yard", some 100, some .satisfactory⟩

/-- A driving payload with no odometer reading. -/
def drivingNoOdoAttrs : DutyAttrs :=
  ⟨.driving, 1000, none, "Yard", none, some .satisfactory⟩

/-- An open on-duty-not-driving entry that started at 23:59:30 of day 0
(second 86370). -/
def midnightEdgeEntry : LogEntry :=
  ⟨1, 0, 86370, none, .on_duty_not_driving, "Dock 3", 0, none, ""⟩

/-- An open on-duty-not-driving entry that started at 08:00:00 of day 0. -/
def morningPickupEntry : LogEntry :=
  ⟨1, 0, 28800, none, .on_duty_not_driving, "Dock 5", 0, none, ""⟩

/-- A profile with midnight auto-close enabled at 00:00 in UTC. -/
def profileMidnight : DriverProfile := ⟨.cycle_70_8, true, 0, 0⟩

/-- Profile table assigning `profileMidnight` to every driver. -/
def profilesMidnight : Nat → DriverProfile := fun _ => profileMidnight

/-- An active automatic trip of driver 1 for day 0. -/
def activeAutoTrip : Trip := ⟨1, .active, some 0, none, .cycle_70_8, 70, 0, true, 0⟩

/-- Initial state for the midnight-rollover scenario. -/
def tickStart : TickState := ⟨[activeAutoTrip], []⟩

/-- A driving entry of day 0 from 23:00 to 01:00 (end before start on the
same calendar date — a midnight-crossing interval). -/
def wrapEntry : LogEntry := ⟨1, 0, 82800, some 3600, .driving, "", 0, some 100, ""⟩

/-- The same midnight-crossing interval as a creation payload. -/
def wrapAttrs : LogEntryAttrs := ⟨82800, some 3600, .driving, "", 0, some 100⟩

/-- A creation payload for an open driving entry carrying a client-supplied
`total_hours` of 5. -/
def nonzeroOpenAttrs : LogEntryAttrs := ⟨28800, none, .driving, "Hwy", 5, some 100⟩

/-- The entry `nonzeroOpenAttrs` creates for driver 1 on day 0. -/
def openNonzeroEntry : LogEntry := ⟨1, 0, 28800, none, .driving, "Hwy", 5, some 100, ""⟩

/-- An active manual trip of driver 1 started at second 1000. -/
def activeTripW : Trip := ⟨1, .active, some 1000, none, .cycle_70_8, 70, 0, false, 0⟩

/-- A planning trip of driver 1. -/
def planningTripW : Trip := ⟨1, .planning, none, none, .cycle_70_8, 70, 0, false, 0⟩

end Spotter

namespace Spotter

/-- C1: `is_hos_compliant` is true exactly when all three checks pass
(driving ≤ 11, driving + on-duty ≤ 14, off-duty + sleeper ≥ 10); in
particular it is false at `total_driving_hours = 11.01` and true at exactly
`11.0` with the other two checks passing. -/
theorem is_hos_compliant_iff_three_checks :
    (∀ l : DailyLog, l.is_hos_compliant = true ↔
      (l.total_driving_hours ≤ 11 ∧
        l.total_driving_hours + l.total_on_duty_hours ≤ 14 ∧
        10 ≤ l.total_off_duty_hours + l.total_sleeper_berth_hours)) ∧
    DailyLog.is_hos_compliant ⟨0, 11.01, 10, 0⟩ = false ∧
    DailyLog.is_hos_compliant ⟨0, 11, 10, 0⟩ = true := by
  refine ⟨fun l => ?_, by norm_num [DailyLog.is_hos_compliant],
    by norm_num [DailyLog.is_hos_compliant]⟩
  unfold DailyLog.is_hos_compliant
  split_ifs with h1 h2 h3
  · simp only [Bool.false_eq_true, false_iff]
    intro h
    exact absurd h.1 (not_le.mpr h1)
  · simp only [Bool.false_eq_true, false_iff]
    intro h
    exact absurd h.2.1 (not_le.mpr h2)
  · simp only [Bool.false_eq_true, false_iff]
    intro h
    exact absurd h.2.2 (not_le.mpr h3)
  · simp only [true_iff]
    exact ⟨not_lt.mp h1, not_lt.mp h2, not_lt.mp h3⟩

/-- C2 counterexample: on the scenario store `calculate_totals` puts only
the on-duty-not-driving hours into `total_on_duty_hours`, so it is 2, not
the claimed 9 (driving hours are tracked in their own bucket). -/
theorem calculate_totals_scenario_on_duty_not_nine :
    (DailyLog.calculate_totals 1 0 scenarioStore).total_on_duty_hours = 2 ∧
    (DailyLog.calculate_totals 1 0 scenarioStore).total_on_duty_hours ≠ 9 := by
  constructor <;>
    norm_num [DailyLog.calculate_totals, scenarioStore, LogEntry.save,
      List.filter, List.map, List.sum]

/-- C2 amended: the scenario yields driving 7h, on-duty-not-driving 2h,
off-duty 14h, sleeper 0h; the 14-hour-window quantity driving + on-duty is
9h; and the summary is HOS-compliant. -/
theorem calculate_totals_scenario_amended :
    DailyLog.calculate_totals 1 0 scenarioStore = ⟨2, 7, 14, 0⟩ ∧
    (DailyLog.calculate_totals 1 0 scenarioStore).total_driving_hours +
      (DailyLog.calculate_totals 1 0 scenarioStore).total_on_duty_hours = 9 ∧
    (DailyLog.calculate_totals 1 0 scenarioStore).is_hos_compliant = true := by
  refine ⟨?_, ?_, ?_⟩ <;>
    norm_num [DailyLog.calculate_totals, DailyLog.is_hos_compliant, scenarioStore,
      LogEntry.save, List.filter, List.map, List.sum]

/-- `validate` either fails or returns the attributes unchanged. -/
theorem duty_status_validate_ok {a a' : DutyAttrs}
    (h : DutyStatusLogSerializer.validate a = .ok a') : a' = a := by
  unfold DutyStatusLogSerializer.validate at h
  split_ifs at h
  rcases hET : a.end_time with _ | et <;> rw [hET] at h <;> dsimp only at h
  · exact (Except.ok.injEq _ _).mp h |>.symm
  · split_ifs at h
    exact (Except.ok.injEq _ _).mp h |>.symm

/-- A row that went through `closeIfOpenDriving` is no longer an open
driving row: either it was not one, or its `end_time` is now set. -/
theorem isOpenDrivingFor_closeIfOpenDriving (driver st : Nat) (l : DutyStatusLog) :
    isOpenDrivingFor driver (closeIfOpenDriving driver st l) = false := by
  unfold closeIfOpenDriving
  by_cases h : isOpenDrivingFor driver l
  · rw [if_pos h]
    simp [isOpenDrivingFor]
  · rw [if_neg h]
    exact Bool.not_eq_true _ |>.mp h

/-- C8: creating a duty-status log with status `driving` and no
`odometer_start` fails with the odometer `ValidationError`; since `create`
runs only after `validate` succeeds, the error reaches the caller with no
interval created. -/
theorem create_driving_without_odometer_fails (driver : Nat) (a : DutyAttrs)
    (store : List DutyStatusLog)
    (hs : a.status = .driving) (ho : a.odometer_start = none) :
    DutyStatusLogSerializer.create driver a store = .error .odometer_start_required := by
  unfold DutyStatusLogSerializer.create DutyStatusLogSerializer.validate
  rw [if_pos ⟨hs, ho⟩]

/-- C8 witness: the concrete no-odometer driving payload is rejected. -/
theorem create_driving_without_odometer_fails_witness :
    DutyStatusLogSerializer.create 1 drivingNoOdoAttrs [openDrivingRow] =
      .error .odometer_start_required :=
  create_driving_without_odometer_fails 1 drivingNoOdoAttrs [openDrivingRow] rfl rfl

/-- C3: when a duty-status creation succeeds, (a) if the store had at most
one open driving interval for the driver it still does afterwards — a new
`driving` log first closes every open driving log of that driver, and a
non-driving log leaves them untouched — and (b) for a `driving` creation
every previously open driving row of the driver appears closed at the new
row's `start_time`. -/
theorem create_keeps_at_most_one_open_driving (driver : Nat) (a : DutyAttrs)
    (store : List DutyStatusLog) (res : List DutyStatusLog × DutyStatusLog)
    (hpre : countOpenDriving driver store ≤ 1)
    (h : DutyStatusLogSerializer.create driver a store = .ok res) :
    countOpenDriving driver res.1 ≤ 1 ∧
    (a.status = .driving → ∀ l ∈ store, isOpenDrivingFor driver l = true →
      { l with end_time := some a.start_time } ∈ res.1) := by
  have hres : res = DutyStatusLogSerializer.createRaw driver a store := by
    unfold DutyStatusLogSerializer.create at h
    rcases hv : DutyStatusLogSerializer.validate a with e | a' <;>
      rw [hv] at h <;> dsimp only at h
    · exact absurd h (by simp)
    · rw [duty_status_validate_ok hv] at h
      exact ((Except.ok.injEq _ _).mp h).symm
  subst hres
  · unfold DutyStatusLogSerializer.createRaw
    constructor
    · by_cases hs : a.status = .driving
      · rw [if_pos hs]
        unfold countOpenDriving
        rw [List.filter_append, List.length_append,
          List.filter_eq_nil_iff.mpr (fun x hx => by
            obtain ⟨l, _, rfl⟩ := List.mem_map.mp hx
            simp [isOpenDrivingFor_closeIfOpenDriving])]
        simpa using List.length_filter_le _ _
      · rw [if_neg hs]
        unfold countOpenDriving
        rw [List.filter_append, List.length_append]
        have : isOpenDrivingFor driver
            { driver := driver, status := a.status, start_time := a.start_time,
              end_time := a.end_time, location := a.location,
              odometer_start := a.odometer_start, odometer_end := none,
              vehicle_condition := a.vehicle_condition } = false := by
          unfold isOpenDrivingFor
          simp only [Bool.and_eq_false_iff]
          left; right
          exact beq_eq_false_iff_ne.mpr hs
        simp only [List.filter_cons, this, if_neg Bool.false_ne_true, List.filter_nil,
          List.length_nil, Nat.add_zero]
        exact hpre
    · intro hs l hl hopen
      rw [if_pos hs]
      refine List.mem_append_left _ ?_
      have := List.mem_map_of_mem (closeIfOpenDriving driver a.start_time) hl
      rwa [closeIfOpenDriving, if_pos hopen] at this

/-- C3 witness: creating a driving log for driver 1 over a store holding
one open driving row leaves at most one open driving row and closes the old
row at second 1000. -/
theorem create_keeps_at_most_one_open_driving_witness :
    countOpenDriving 1 (DutyStatusLogSerializer.createRaw 1 drivingAttrs [openDrivingRow]).1 ≤ 1 ∧
    { openDrivingRow with end_time := some drivingAttrs.start_time } ∈
      (DutyStatusLogSerializer.createRaw 1 drivingAttrs [openDrivingRow]).1 := by
  have h := create_keeps_at_most_one_open_driving 1 drivingAttrs [openDrivingRow]
    (DutyStatusLogSerializer.createRaw 1 drivingAttrs [openDrivingRow]) (by decide) rfl
  exact ⟨h.1, h.2 rfl openDrivingRow (List.mem_singleton.mpr rfl) (by decide)⟩

/-- C7: `complete_trip` fails when the trip is not active; on an active
trip with a start time it sets status completed and `end_time = now`, adds
the elapsed hours to `used_hours` and subtracts them from
`available_hours` with no clamping, and creates an off-duty entry for
today; a trip completed 7200 seconds after its start moves exactly 2.0
hours. -/
theorem complete_trip_spec (now : Nat) (t : Trip) :
    (t.status ≠ .active → complete_trip now t = .error "Trip is not active") ∧
    (∀ s, t.status = .active → t.start_time = some s →
      complete_trip now t = .ok
        ({ t with
            status := TripStatus.completed
            end_time := some now
            used_hours := t.used_hours + ((now : ℚ) - (s : ℚ)) / 3600
            available_hours := t.available_hours - ((now : ℚ) - (s : ℚ)) / 3600 },
          offDutyLogEntry t.driver now "Trip completed"
            "Automatic log entry created when trip completed") ∧
      (now = s + 7200 → ((now : ℚ) - (s : ℚ)) / 3600 = 2)) := by
  constructor
  · intro h
    unfold complete_trip
    rw [if_pos h]
  · intro s hact hst
    constructor
    · unfold complete_trip
      rw [if_neg (by simp [hact]), hst]
    · intro h7
      subst h7
      push_cast
      ring_nf

/-- C7 witness: completing the concrete active trip started at second 1000
at second 8200 moves exactly 2 hours; completing a planning trip fails. -/
theorem complete_trip_spec_witness :
    complete_trip 8200 planningTripW = .error "Trip is not active" ∧
    complete_trip 8200 activeTripW = .ok
      ({ activeTripW with
          status := TripStatus.completed
          end_time := some 8200
          used_hours := activeTripW.used_hours + (((8200 : ℕ) : ℚ) - ((1000 : ℕ) : ℚ)) / 3600
          available_hours :=
            activeTripW.available_hours - (((8200 : ℕ) : ℚ) - ((1000 : ℕ) : ℚ)) / 3600 },
        offDutyLogEntry activeTripW.driver 8200 "Trip completed"
          "Automatic log entry created when trip completed") ∧
    (((8200 : ℕ) : ℚ) - ((1000 : ℕ) : ℚ)) / 3600 = 2 :=
  ⟨(complete_trip_spec 8200 planningTripW).1 (by decide),
    ((complete_trip_spec 8200 activeTripW).2 1000 rfl rfl).1,
    ((complete_trip_spec 8200 activeTripW).2 1000 rfl rfl).2 rfl⟩

/-- C10: the internal creation paths (trip start and the auto-revert tick)
always create their driving entries with no odometer reading and never run
the odometer validation, while the external duty-status creation interface
rejects a driving payload without an odometer. -/
theorem internal_driving_entries_have_no_odometer :
    (∀ now (t : Trip), t.status = .planning →
      start_trip now t = .ok ({ t with status := .active, start_time := some now },
        startTripEntry t.driver now) ∧
      (startTripEntry t.driver now).duty_status = .driving ∧
      (startTripEntry t.driver now).odometer_start = none ∧
      (startTripEntry t.driver now).end_time = none) ∧
    (∀ now (e : LogEntry), (autoSwitchNewEntry now e).duty_status = .driving ∧
      (autoSwitchNewEntry now e).odometer_start = none ∧
      (autoSwitchNewEntry now e).end_time = none) ∧
    (∀ driver (a : DutyAttrs) store, a.status = .driving → a.odometer_start = none →
      DutyStatusLogSerializer.create driver a store = .error .odometer_start_required) := by
  refine ⟨?_, ?_, ?_⟩
  · intro now t h
    refine ⟨?_, rfl, rfl, rfl⟩
    unfold start_trip
    rw [if_neg (by simp [h])]
  · intro now e
    exact ⟨rfl, rfl, rfl⟩
  · intro driver a store hs ho
    unfold DutyStatusLogSerializer.create DutyStatusLogSerializer.validate
    rw [if_pos ⟨hs, ho⟩]

/-- C10 witness: concrete instances of all three parts. -/
theorem internal_driving_entries_have_no_odometer_witness :
    (start_trip 3600 planningTripW =
        .ok ({ planningTripW with status := .active, start_time := some 3600 },
          startTripEntry planningTripW.driver 3600) ∧
      (startTripEntry planningTripW.driver 3600).duty_status = .driving ∧
      (startTripEntry planningTripW.driver 3600).odometer_start = none ∧
      (startTripEntry planningTripW.driver 3600).end_time = none) ∧
    ((autoSwitchNewEntry 7200 morningPickupEntry).duty_status = .driving ∧
      (autoSwitchNewEntry 7200 morningPickupEntry).odometer_start = none ∧
      (autoSwitchNewEntry 7200 morningPickupEntry).end_time = none) ∧
    DutyStatusLogSerializer.create 2 drivingNoOdoAttrs [] = .error .odometer_start_required :=
  ⟨internal_driving_entries_have_no_odometer.1 3600 planningTripW rfl,
    internal_driving_entries_have_no_odometer.2.1 7200 morningPickupEntry,
    internal_driving_entries_have_no_odometer.2.2 2 drivingNoOdoAttrs [] rfl rfl⟩


/-- C5 amended: the auto-switch tick closes each entry that passes the
queryset prefilter and whose elapsed time is within [1h, 1h+5min] of now —
setting `end_time` to the entry's own `start_time` (hence zero hours) and
creating a driving entry that starts now and carries the location — and it
leaves every unprocessed entry unchanged, in particular every open
on-duty-not-driving entry older than 1h5m.  The prefilter (part of
`autoSwitchProcessed`) compares the `start_time` clock time against the
time-of-day of now − 1h, so an in-window entry that crossed midnight is
not processed. -/
theorem auto_switch_processes_window_entries (now : Nat) (store : List LogEntry)
    (e : LogEntry) (he : e ∈ store) :
    (autoSwitchProcessed now e = true →
      autoSwitchClose e = { e with end_time := some e.start_time, total_hours := 0 } ∧
      autoSwitchClose e ∈ autoSwitchTick now store ∧
      autoSwitchNewEntry now e ∈ autoSwitchTick now store ∧
      (autoSwitchNewEntry now e).duty_status = .driving ∧
      (autoSwitchNewEntry now e).location = e.location ∧
      (autoSwitchNewEntry now e).date = now / 86400 ∧
      (autoSwitchNewEntry now e).start_time = now % 86400) ∧
    (autoSwitchProcessed now e = false → e ∈ autoSwitchTick now store) ∧
    (3900 < ((now : Int) - ((e.date : Int) * 86400 + (e.start_time : Int))).natAbs →
      autoSwitchProcessed now e = false) := by
  refine ⟨?_, ?_, ?_⟩
  · intro hp
    have hclose :
        autoSwitchClose e = { e with end_time := some e.start_time, total_hours := 0 } := by
      unfold autoSwitchClose LogEntry.save
      dsimp only
      rw [if_neg (lt_irrefl e.start_time)]
      simp
    refine ⟨hclose, ?_, ?_, rfl, rfl, rfl, rfl⟩
    · unfold autoSwitchTick
      refine List.mem_append_left _ ?_
      have := List.mem_map_of_mem
        (fun x => if autoSwitchProcessed now x then autoSwitchClose x else x) he
      simpa [hp] using this
    · unfold autoSwitchTick
      refine List.mem_append_right _ ?_
      exact List.mem_map_of_mem _ (List.mem_filter.mpr ⟨he, hp⟩)
  · intro hp
    unfold autoSwitchTick
    refine List.mem_append_left _ ?_
    have := List.mem_map_of_mem
      (fun x => if autoSwitchProcessed now x then autoSwitchClose x else x) he
    simpa [hp] using this
  · intro hgt
    have hw : autoSwitchWindow now e = false := by
      unfold autoSwitchWindow
      simp only [decide_eq_false_iff_not]
      intro hcon
      exact absurd hcon.2 (not_le.mpr hgt)
    unfold autoSwitchProcessed
    rw [hw, Bool.and_false]

/-- C5 witness: a pickup entry that started at 08:00 is processed by a tick
at 09:00:30 (elapsed 3630s); an entry of the same shape is left unchanged
by a tick at 09:10:00 (elapsed 4200s > 3900s). -/
theorem auto_switch_processes_window_entries_witness :
    (autoSwitchClose morningPickupEntry =
        { morningPickupEntry with
            end_time := some morningPickupEntry.start_time, total_hours := 0 } ∧
      autoSwitchClose morningPickupEntry ∈ autoSwitchTick 32430 [morningPickupEntry] ∧
      autoSwitchNewEntry 32430 morningPickupEntry ∈ autoSwitchTick 32430 [morningPickupEntry] ∧
      (autoSwitchNewEntry 32430 morningPickupEntry).duty_status = .driving ∧
      (autoSwitchNewEntry 32430 morningPickupEntry).location = morningPickupEntry.location ∧
      (autoSwitchNewEntry 32430 morningPickupEntry).date = 32430 / 86400 ∧
      (autoSwitchNewEntry 32430 morningPickupEntry).start_time = 32430 % 86400) ∧
    morningPickupEntry ∈ autoSwitchTick 33000 [morningPickupEntry] ∧
    autoSwitchProcessed 33000 morningPickupEntry = false :=
  ⟨(auto_switch_processes_window_entries 32430 [morningPickupEntry] morningPickupEntry
      (List.mem_singleton.mpr rfl)).1 (by decide),
    (auto_switch_processes_window_entries 33000 [morningPickupEntry] morningPickupEntry
      (List.mem_singleton.mpr rfl)).2.1 (by decide),
    (auto_switch_processes_window_entries 33000 [morningPickupEntry] morningPickupEntry
      (List.mem_singleton.mpr rfl)).2.2 (by decide)⟩

/-- C5 counterexample: an open on-duty-not-driving entry that started at
23:59:30 of day 0 has elapsed 3660s — inside the [3600, 3900] window — at
01:00:30 of day 1, yet the tick leaves the store unchanged, because the
queryset prefilter compares the start clock time 23:59:30 against the
time-of-day of now − 1h (00:00:30). -/
theorem auto_switch_midnight_edge_skipped :
    autoSwitchTick 90030 [midnightEdgeEntry] = [midnightEdgeEntry] ∧
    midnightEdgeEntry.duty_status = .on_duty_not_driving ∧
    midnightEdgeEntry.end_time = none ∧
    ((90030 : Int) - ((midnightEdgeEntry.date : Int) * 86400 +
      (midnightEdgeEntry.start_time : Int))).natAbs = 3660 ∧
    autoSwitchWindow 90030 midnightEdgeEntry = true := by
  exact ⟨by decide, rfl, rfl, by decide, by decide⟩

/-- C6 amended: neither closing path takes a midnight-crossing signal.
The model `save` never fails: with an `end_time` before the `start_time`
it computes duration = end + 24h − start, otherwise end − start.  The
create-serializer validation rejects every `end_time ≤ start_time` with
the "End time must be after start time" `ValidationError`. -/
theorem log_entry_close_duration (e : LogEntry) (et : Nat) (h : e.end_time = some et)
    (driver today : Nat) (a : LogEntryAttrs) (store : List LogEntry)
    (et' : Nat) (ha : a.end_time = some et') (hle : et' ≤ a.start_time) :
    (et < e.start_time →
      (LogEntry.save e).total_hours = (((et : ℚ) + 86400) - (e.start_time : ℚ)) / 3600) ∧
    (e.start_time ≤ et →
      (LogEntry.save e).total_hours = ((et : ℚ) - (e.start_time : ℚ)) / 3600) ∧
    LogEntryCreateSerializer.create driver today a store = .error .end_time_not_after_start := by
  refine ⟨?_, ?_, ?_⟩
  · intro hlt
    unfold LogEntry.save
    rw [h]
    dsimp only
    rw [if_pos hlt]
  · intro hge
    unfold LogEntry.save
    rw [h]
    dsimp only
    rw [if_neg (not_lt.mpr hge), add_zero]
  · unfold LogEntryCreateSerializer.create LogEntryCreateSerializer.validate
    rw [ha]
    dsimp only
    rw [if_pos hle]

/-- C6 witness: closing 23:00 → 01:00 through the model `save` yields
(3600 + 86400 − 82800)/3600 = 2 hours, and the same bounds are rejected by
the creation serializer. -/
theorem log_entry_close_duration_witness :
    (LogEntry.save wrapEntry).total_hours =
        (((3600 : ℕ) : ℚ) + 86400 - ((wrapEntry.start_time : ℕ) : ℚ)) / 3600 ∧
    LogEntryCreateSerializer.create 1 0 wrapAttrs [] = .error .end_time_not_after_start :=
  ⟨(log_entry_close_duration wrapEntry 3600 rfl 1 0 wrapAttrs [] 3600 rfl
      (by decide)).1 (by decide),
    (log_entry_close_duration wrapEntry 3600 rfl 1 0 wrapAttrs [] 3600 rfl
      (by decide)).2.2⟩

/-- C6 counterexample: for the day-0 interval 23:00 → 01:00 (end before
start on the same date, with no midnight-crossing signal anywhere in the
interface) the close computation does not fail: `save` silently applies the
24h wrap and stores 2.0 hours, while the creation serializer rejects the
same interval outright — there is no path that fails only in the absence of
an explicit signal. -/
theorem log_entry_midnight_close_does_not_fail :
    wrapEntry.end_time = some 3600 ∧ (3600 : Nat) < wrapEntry.start_time ∧
    (LogEntry.save wrapEntry).total_hours = 2 ∧
    LogEntryCreateSerializer.create 1 0 wrapAttrs [] = .error .end_time_not_after_start := by
  refine ⟨rfl, by decide, ?_, rfl⟩
  norm_num [LogEntry.save, wrapEntry]

/-- The log-entry creation `validate` either fails or returns the
attributes unchanged. -/
theorem log_entry_validate_ok {a a' : LogEntryAttrs}
    (h : LogEntryCreateSerializer.validate a = .ok a') : a' = a := by
  unfold LogEntryCreateSerializer.validate at h
  rcases hET : a.end_time with _ | et <;> rw [hET] at h <;> dsimp only at h
  · exact (Except.ok.injEq _ _).mp h |>.symm
  · split_ifs at h
    exact (Except.ok.injEq _ _).mp h |>.symm

/-- C9 amended: an entry — open or closed — contributes exactly its stored
`total_hours` to its status bucket of `calculate_totals`; the internal
creation paths (auto-revert tick, the off-duty entries of the trip flows,
trip start, trip completion) all store 0, and the model `save` leaves the
stored value untouched while `end_time` is null; but the external log-entry
creation serializer stores the client-supplied `total_hours`, so an open
entry created there may carry a nonzero value. -/
theorem open_entry_contributes_stored_hours (d day : Nat) (store : List LogEntry)
    (e : LogEntry) (hd : e.driver = d) (hdate : e.date = day) :
    DailyLog.calculate_totals d day (e :: store) =
      (DailyLog.calculate_totals d day store).addEntryHours e ∧
    (∀ now e', (autoSwitchNewEntry now e').total_hours = 0) ∧
    (∀ dr now loc note, (offDutyLogEntry dr now loc note).total_hours = 0) ∧
    (∀ now t t' en, start_trip now t = .ok (t', en) → en.total_hours = 0) ∧
    (∀ now t t' en, complete_trip now t = .ok (t', en) → en.total_hours = 0) ∧
    (∀ e', e'.end_time = none → LogEntry.save e' = e') ∧
    (∀ driver today a store' res,
      LogEntryCreateSerializer.create driver today a store' = .ok res →
      a.end_time = none → res.2.total_hours = a.total_hours) := by
  refine ⟨?_, fun now e' => rfl, fun dr now loc note => rfl, ?_, ?_, ?_, ?_⟩
  · cases hds : e.duty_status <;>
      simp [DailyLog.calculate_totals, DailyLog.addEntryHours, hd, hdate, hds,
        List.filter_cons]
  · intro now t t' en h
    unfold start_trip at h
    by_cases hs : t.status ≠ .planning
    · rw [if_pos hs] at h
      exact absurd h (by simp)
    · rw [if_neg hs] at h
      have h2 := congrArg Prod.snd ((Except.ok.injEq _ _).mp h)
      dsimp only at h2
      rw [← h2]
      rfl
  · intro now t t' en h
    unfold complete_trip at h
    by_cases hs : t.status ≠ .active
    · rw [if_pos hs] at h
      exact absurd h (by simp)
    · rw [if_neg hs] at h
      dsimp only at h
      have h2 := congrArg Prod.snd ((Except.ok.injEq _ _).mp h)
      dsimp only at h2
      rw [← h2]
      rfl
  · intro e' he
    unfold LogEntry.save
    rw [he]
  · intro driver today a store' res h hnone
    unfold LogEntryCreateSerializer.create at h
    rcases hv : LogEntryCreateSerializer.validate a with er | a2 <;>
      rw [hv] at h <;> dsimp only at h
    · exact absurd h (by simp)
    · obtain rfl : a2 = a := log_entry_validate_ok hv
      have h2 := congrArg Prod.snd ((Except.ok.injEq _ _).mp h)
      rw [← h2]
      dsimp only
      unfold LogEntry.save
      dsimp only
      rw [hnone]

/-- C9 witness: concrete instances — consing the open nonzero entry shifts
the driving total by its stored hours, and two internal entries carry 0. -/
theorem open_entry_contributes_stored_hours_witness :
    DailyLog.calculate_totals 1 0 (openNonzeroEntry :: scenarioStore) =
      (DailyLog.calculate_totals 1 0 scenarioStore).addEntryHours openNonzeroEntry ∧
    (autoSwitchNewEntry 32430 morningPickupEntry).total_hours = 0 ∧
    (offDutyLogEntry 1 8200 "Yard" "done").total_hours = 0 := by
  have h := open_entry_contributes_stored_hours 1 0 scenarioStore openNonzeroEntry rfl rfl
  exact ⟨h.1, h.2.1 32430 morningPickupEntry, h.2.2.1 1 8200 "Yard" "done"⟩

/-- C9 counterexample: the external creation path accepts a client-supplied
`total_hours` of 5 on an open entry, and `calculate_totals` counts those 5
hours — not zero — while the entry is still open. -/
theorem open_entry_counts_stored_nonzero_hours :
    LogEntryCreateSerializer.create 1 0 nonzeroOpenAttrs [] =
      .ok ([openNonzeroEntry], openNonzeroEntry) ∧
    openNonzeroEntry.end_time = none ∧
    openNonzeroEntry.total_hours = 5 ∧
    (DailyLog.calculate_totals 1 0 [openNonzeroEntry]).total_driving_hours = 5 ∧
    (5 : ℚ) ≠ 0 := by
  refine ⟨rfl, rfl, rfl, ?_, by norm_num⟩
  norm_num [DailyLog.calculate_totals, openNonzeroEntry, List.filter, List.map, List.sum]

/-- C4: evaluation of the midnight command at the failing input.  Driver 1
has auto-close configured at 00:00 UTC and one active automatic trip.  A
tick at 00:00 of day 1 closes it and creates one successor (2 trips).  A
second tick one minute later — still within the ±5-minute window — finds
the successor active, closes it, and creates a second successor (3 trips,
exactly one of them started at 00:01), so the rerun does double-process:
the "no longer active" guard does not cover the newly created trip. -/
theorem close_trips_second_tick_creates_second_successor :
    Trip.should_auto_close 86460 profileMidnight = true ∧
    (closeTripsTick profilesMidnight 86400 tickStart).trips.length = 2 ∧
    (closeTripsTick profilesMidnight 86460
        (closeTripsTick profilesMidnight 86400 tickStart)).trips.length = 3 ∧
    ((closeTripsTick profilesMidnight 86460
        (closeTripsTick profilesMidnight 86400 tickStart)).trips.filter
      (fun t => t.is_automatic && t.start_time == some 86460)).length = 1 := by
  exact ⟨by decide, by decide, by decide, by decide⟩

end Spotter
